import Mathlib

/-!
Shallow embedding of the real-time chat delivery core of the `chat-app`
repository: the SSE connection registry (`util/chat_manager.py`), the
canonical room-id function (`repo/chat_sala_repo.py`), the message
repository (`repo/chat_mensagem_repo.py`), and the message-sending
handler (`routes/chat_routes.py`).  Timestamps are abstract `Nat` ticks;
`asyncio.Queue` objects are identified by allocation order and their FIFO
contents tracked as lists.
-/

set_option autoImplicit false

namespace ChatApp

/-! ### Python string primitives used by the chat code -/

/-- Whitespace characters stripped by Python's `str.strip()` / `int()`. -/
def isPyWhitespace (c : Char) : Bool :=
  c = ' ' || c = '\t' || c = '\n' || c = '\r'

/-- Decimal digit test. -/
def isDigitChar (c : Char) : Bool :=
  '0' ≤ c && c ≤ '9'

/-- `str.split(sep)` for a one-character separator, on the character list.
Matches Python: splitting the empty string gives `[""]`, splitting `"_"`
gives `["", ""]`. -/
def splitChar (sep : Char) : List Char → List (List Char)
  | [] => [[]]
  | c :: cs =>
    match splitChar sep cs with
    | [] => if c = sep then [[], []] else [[c]]
    | p :: ps => if c = sep then [] :: p :: ps else (c :: p) :: ps

/-- `sala_id.split("_")` on a `String`. -/
def pySplitUnderscore (s : String) : List String :=
  (splitChar '_' s.data).map String.mk

/-- Drop the leading characters satisfying `p`. -/
def stripLeading (p : Char → Bool) : List Char → List Char
  | [] => []
  | c :: cs => if p c then stripLeading p cs else c :: cs

/-- `str.strip()` on a character list: remove leading and trailing whitespace. -/
def pyStrip (cs : List Char) : List Char :=
  stripLeading isPyWhitespace ((stripLeading isPyWhitespace cs.reverse).reverse)

/-- Numeric value of a digit character. -/
def digitVal (c : Char) : Nat := c.toNat - 48

/-- Value of a digit string, most significant digit first. -/
def digitsToNat (ds : List Char) : Nat :=
  ds.foldl (fun acc c => acc * 10 + digitVal c) 0

/-- Parse a nonempty all-digit character list; `none` otherwise. -/
def parseDigits (ds : List Char) : Option Nat :=
  if ds ≠ [] && ds.all isDigitChar then some (digitsToNat ds) else none

/-- Python `int(s)`: strip whitespace, take an optional sign, then decimal
digits; `none` models the `ValueError` raised on any other input.  (The
strings fed to it here come from `split("_")`, so digit-group underscores
cannot occur in them.) -/
def pyInt (s : String) : Option Int :=
  match pyStrip s.data with
  | [] => none
  | c :: rest =>
    if c = '-' then (parseDigits rest).map (fun n => -(n : Int))
    else if c = '+' then (parseDigits rest).map (fun n => (n : Int))
    else (parseDigits (c :: rest)).map (fun n => (n : Int))

/-- The character for the digit `n` (meaningful for `n ≤ 9`). -/
def digitChar (n : Nat) : Char := Char.ofNat (48 + n)

/-- Decimal digits of `n`, most significant first, prepended to `acc`;
structural on the fuel, which is adequate whenever `n ≤ fuel`. -/
def natDigitsAux : Nat → Nat → List Char → List Char
  | 0, n, acc => digitChar (n % 10) :: acc
  | fuel + 1, n, acc =>
    if n < 10 then digitChar n :: acc
    else natDigitsAux fuel (n / 10) (digitChar (n % 10) :: acc)

/-- Decimal digits of `n`, most significant first. -/
def natDigits (n : Nat) : List Char := natDigitsAux n n []

/-- Python `str` of a nonnegative `int`. -/
def natToString (n : Nat) : String := String.mk (natDigits n)

/-- Python `str` of an `int`: decimal digits, `-`-prefixed when negative. -/
def intToString (i : Int) : String :=
  if i < 0 then String.mk ('-' :: natDigits i.natAbs) else natToString i.natAbs

/-! ### SSE events -/

/-- The message snapshot embedded in a `nova_mensagem` SSE event (the
`mensagem_sse["mensagem"]` dict built by `enviar_mensagem`). -/
structure MensagemSSE where
  id : Nat
  sala_id : String
  usuario_id : Int
  mensagem : String
  data_envio : Option String
  lida_em : Option String
deriving DecidableEq, Repr

/-- A delivery event handed to `ChatManager.broadcast_para_sala` (the
`mensagem_sse` dict: event kind, room id, message snapshot). -/
structure EventoSSE where
  tipo : String
  sala_id : String
  mensagem : MensagemSSE
deriving DecidableEq, Repr

/-! ### `util/chat_manager.py` — the connection registry -/

/-- State of a `ChatManager` instance: `_connections` maps a user id to the
identity of its current `asyncio.Queue`; `_active_connections` is the
membership set used by `is_connected`; `queueOf` tracks each queue's FIFO
contents (enqueue at the tail); `nextQueue` allocates fresh queue
identities, so a queue id not in the range of `connections` is dead. -/
structure ManagerState where
  connections : Int → Option Nat
  activeConnections : Int → Bool
  queueOf : Nat → List EventoSSE
  nextQueue : Nat

/-- A freshly constructed `ChatManager` (`__init__`): empty dict, empty set. -/
def initialManager : ManagerState where
  connections := fun _ => none
  activeConnections := fun _ => false
  queueOf := fun _ => []
  nextQueue := 0

/-- `ChatManager.connect`: allocates a fresh queue, stores it under
`usuario_id` in `_connections` (replacing any previous queue for that user),
adds the user to `_active_connections`, and returns the queue. -/
def ManagerState.connect (s : ManagerState) (usuario_id : Int) :
    ManagerState × Nat :=
  let q := s.nextQueue
  ({ connections := fun v => if v = usuario_id then some q else s.connections v
     activeConnections := fun v => if v = usuario_id then true else s.activeConnections v
     queueOf := s.queueOf
     nextQueue := q + 1 }, q)

/-- `ChatManager.disconnect`: deletes the `_connections` entry if present and
removes the user from `_active_connections` if present, mirroring the two
`if ... in ...` guards of the source. -/
def ManagerState.disconnect (s : ManagerState) (usuario_id : Int) : ManagerState :=
  let s1 :=
    if (s.connections usuario_id).isSome then
      { s with connections := fun v => if v = usuario_id then none else s.connections v }
    else s
  if s1.activeConnections usuario_id then
    { s1 with activeConnections := fun v => if v = usuario_id then false else s1.activeConnections v }
  else s1

/-- One fan-out step of `broadcast_para_sala` for one participant
(`if usuario_id in self._connections: await self._connections[usuario_id].put(...)`);
this is the registry's `deliverToUser` operation of the specification:
enqueue onto the tail of the user's live queue, reporting whether a delivery
happened. -/
def ManagerState.deliverToUser (s : ManagerState) (usuario_id : Int)
    (evento : EventoSSE) : ManagerState × Bool :=
  match s.connections usuario_id with
  | some q =>
    ({ s with queueOf := fun c => if c = q then s.queueOf c ++ [evento] else s.queueOf c },
     true)
  | none => (s, false)

/-- Observable outcome of `broadcast_para_sala`: `invalidId` is the logged
early return taken when `len(partes) != 2`; `valueError` is the unhandled
`ValueError` raised by `int(...)` on a non-numeric part (before any
enqueue); `delivered u1 u2` is the normal path over the parsed pair. -/
inductive BroadcastOutcome where
  | invalidId
  | valueError
  | delivered (usuario1_id usuario2_id : Int)
deriving DecidableEq, Repr

/-- `ChatManager.broadcast_para_sala`: split the room id on `_`; with other
than two parts, log and return; otherwise parse both parts with `int`
(raising `ValueError` on a non-numeric part) and enqueue the event for each
of the two participants that is connected, first id first. -/
def ManagerState.broadcast_para_sala (s : ManagerState) (sala_id : String)
    (evento : EventoSSE) : ManagerState × BroadcastOutcome :=
  match pySplitUnderscore sala_id with
  | [parte0, parte1] =>
    match pyInt parte0 with
    | none => (s, .valueError)
    | some usuario1_id =>
      match pyInt parte1 with
      | none => (s, .valueError)
      | some usuario2_id =>
        let s1 := (s.deliverToUser usuario1_id evento).1
        let s2 := (s1.deliverToUser usuario2_id evento).1
        (s2, .delivered usuario1_id usuario2_id)
  | _ => (s, .invalidId)

/-- `ChatManager.is_connected`: membership in `_active_connections`. -/
def ManagerState.is_connected (s : ManagerState) (usuario_id : Int) : Bool :=
  s.activeConnections usuario_id

/-- One iteration of the SSE `event_generator` loop, viewed at its queue:
`await queue.get()` removes and returns the event at the head of the FIFO
(`none` models the loop suspending on an empty queue). -/
def queueGet (q : List EventoSSE) : Option (EventoSSE × List EventoSSE) :=
  match q with
  | [] => none
  | e :: es => some (e, es)

/-- A `ChatManager` call, for stating invariants over arbitrary call
sequences against the module-level singleton. -/
inductive ManagerOp where
  | connect (usuario_id : Int)
  | disconnect (usuario_id : Int)
  | broadcast (sala_id : String) (evento : EventoSSE)

/-- Apply one `ChatManager` call to the state. -/
def applyOp (s : ManagerState) : ManagerOp → ManagerState
  | .connect u => (s.connect u).1
  | .disconnect u => s.disconnect u
  | .broadcast sala ev => (s.broadcast_para_sala sala ev).1

/-- Run a sequence of `ChatManager` calls from a state. -/
def runOps (s : ManagerState) (ops : List ManagerOp) : ManagerState :=
  ops.foldl applyOp s

/-! ### Durable store rows (`model/`) -/

/-- Row of `chat_mensagem` (the `ChatMensagem` model); timestamps are
abstract `Nat` ticks, `lida_em IS NULL` is `none`. -/
structure ChatMensagem where
  id : Nat
  sala_id : String
  usuario_id : Int
  mensagem : String
  data_envio : Nat
  lida_em : Option Nat
deriving DecidableEq, Repr

/-- Row of `chat_sala` (the `ChatSala` model). -/
structure ChatSala where
  id : String
  criada_em : Nat
  ultima_atividade : Nat
deriving DecidableEq, Repr

/-- Row of `chat_participante` (the `ChatParticipante` model). -/
structure ChatParticipante where
  sala_id : String
  usuario_id : Int
  ultima_leitura : Option Nat
deriving DecidableEq, Repr

/-- The durable store: the three chat tables, the rowid counter for
`chat_mensagem`, and the `datetime.now()` clock (frozen across one request,
which is all the claims observe). -/
structure DB where
  mensagens : List ChatMensagem
  participantes : List ChatParticipante
  salas : List ChatSala
  nextMensagemId : Nat
  now : Nat
deriving DecidableEq, Repr

/-! ### `repo/` — data access -/

/-- `chat_sala_repo.gerar_sala_id`: sort the two ids, join with `_`
(the f-string produces the decimal forms). -/
def gerar_sala_id (usuario1_id usuario2_id : Int) : String :=
  let menor := if usuario1_id ≤ usuario2_id then usuario1_id else usuario2_id
  let maior := if usuario1_id ≤ usuario2_id then usuario2_id else usuario1_id
  intToString menor ++ "_" ++ intToString maior

/-- `chat_participante_repo.obter_por_sala_e_usuario`:
`SELECT * FROM chat_participante WHERE sala_id = ? AND usuario_id = ?`,
first matching row. -/
def obter_por_sala_e_usuario (db : DB) (sala_id : String) (usuario_id : Int) :
    Option ChatParticipante :=
  db.participantes.find? (fun p => p.sala_id == sala_id && p.usuario_id == usuario_id)

/-- `chat_mensagem_repo.inserir`: `INSERT INTO chat_mensagem ...` with
`lida_em` unset; returns the row built from `lastrowid`. -/
def inserir (db : DB) (sala_id : String) (usuario_id : Int) (mensagem : String) :
    DB × ChatMensagem :=
  let nova : ChatMensagem :=
    { id := db.nextMensagemId
      sala_id := sala_id
      usuario_id := usuario_id
      mensagem := mensagem
      data_envio := db.now
      lida_em := none }
  ({ db with
      mensagens := db.mensagens ++ [nova]
      nextMensagemId := db.nextMensagemId + 1 }, nova)

/-- `chat_sala_repo.atualizar_ultima_atividade`:
`UPDATE chat_sala SET ultima_atividade = ? WHERE id = ?`. -/
def atualizar_ultima_atividade (db : DB) (sala_id : String) : DB :=
  { db with
      salas := db.salas.map (fun sala =>
        if sala.id == sala_id then { sala with ultima_atividade := db.now } else sala) }

/-- The SQL row filter `sala_id = ? AND usuario_id != ? AND lida_em IS NULL`
shared verbatim by `marcar_como_lidas` and `contar_nao_lidas_por_sala`. -/
def naoLidaDeOutro (sala_id : String) (usuario_id : Int) (m : ChatMensagem) : Bool :=
  m.sala_id == sala_id && m.usuario_id != usuario_id && m.lida_em == none

/-- `chat_mensagem_repo.marcar_como_lidas`: `UPDATE chat_mensagem SET
lida_em = now` on the rows matched by `naoLidaDeOutro`; returns
`rowcount > 0`. -/
def marcar_como_lidas (db : DB) (sala_id : String) (usuario_id : Int) : DB × Bool :=
  ({ db with
      mensagens := db.mensagens.map (fun m =>
        if naoLidaDeOutro sala_id usuario_id m then { m with lida_em := some db.now } else m) },
   0 < (db.mensagens.filter (naoLidaDeOutro sala_id usuario_id)).length)

/-- `chat_mensagem_repo.contar_nao_lidas_por_sala`: `SELECT COUNT(*)` over
the rows matched by `naoLidaDeOutro`. -/
def contar_nao_lidas_por_sala (db : DB) (sala_id : String) (usuario_id : Int) : Nat :=
  (db.mensagens.filter (naoLidaDeOutro sala_id usuario_id)).length

/-! ### `routes/chat_routes.py` — the message-sending handler -/

/-- `formatar_data_iso`: `None` stays `None`; a timestamp is rendered as a
string (`datetime.isoformat()`, modelled as decimal rendering of the tick). -/
def formatar_data_iso (valor : Option Nat) : Option String :=
  valor.map natToString

/-- `EnviarMensagemDTO` validation: both fields are stripped; an empty room
id, an empty message, or a message over 5000 characters raises
`ValidationError` (`none`); otherwise the stripped pair is returned. -/
def enviarMensagemDTO (sala_id mensagem : String) : Option (String × String) :=
  let sala := String.mk (pyStrip sala_id.data)
  let msg := String.mk (pyStrip mensagem.data)
  if sala = "" then none
  else if msg = "" then none
  else if 5000 < msg.length then none
  else some (sala, msg)

/-- Outcome of the `POST /chat/mensagens` handler as seen by the client:
HTTP 400 on `ValidationError`, HTTP 403 when the sender is not a
participant, a propagated server error when the store's `INSERT` fails, a
propagated server error when `broadcast_para_sala` raises `ValueError`, or
the success payload. -/
inductive EnvioResultado where
  | erroValidacao
  | erroForbidden
  | falhaStore
  | falhaBroadcast
  | sucesso (mensagem : MensagemSSE)
deriving DecidableEq, Repr

/-- The `mensagem_sse["mensagem"]` payload that `enviar_mensagem` builds
from the freshly inserted row (its `lida_em` field is the literal `None`). -/
def mensagemSSEOf (nova : ChatMensagem) : MensagemSSE where
  id := nova.id
  sala_id := nova.sala_id
  usuario_id := nova.usuario_id
  mensagem := nova.mensagem
  data_envio := formatar_data_iso (some nova.data_envio)
  lida_em := none

/-- The full `mensagem_sse` dict handed to `broadcast_para_sala`. -/
def eventoSSEOf (nova : ChatMensagem) : EventoSSE where
  tipo := "nova_mensagem"
  sala_id := nova.sala_id
  mensagem := mensagemSSEOf nova

/-- The `enviar_mensagem` handler.  `storeFault` models the durable store
raising on the `INSERT` (a persistence failure); the handler catches only
`ValidationError`, so both that fault and the `ValueError` out of
`broadcast_para_sala` propagate, aborting the remaining steps. -/
def enviar_mensagem (storeFault : Bool) (db : DB) (mgr : ManagerState)
    (sala_id mensagem : String) (usuario_id : Int) :
    DB × ManagerState × EnvioResultado :=
  match enviarMensagemDTO sala_id mensagem with
  | none => (db, mgr, .erroValidacao)
  | some (sala, msg) =>
    match obter_por_sala_e_usuario db sala usuario_id with
    | none => (db, mgr, .erroForbidden)
    | some _ =>
      if storeFault then (db, mgr, .falhaStore)
      else
        let ins := inserir db sala usuario_id msg
        let db2 := atualizar_ultima_atividade ins.1 sala
        match mgr.broadcast_para_sala sala (eventoSSEOf ins.2) with
        | (mgr2, .valueError) => (db2, mgr2, .falhaBroadcast)
        | (mgr2, _) => (db2, mgr2, .sucesso (mensagemSSEOf ins.2))

/-! ### Auxiliary predicates and concrete scenario states -/

/-- The registry consistency invariant implicit in `ChatManager`: the
membership set `_active_connections` holds exactly the keys of the channel
map `_connections`. -/
def registryConsistent (s : ManagerState) : Prop :=
  ∀ u, s.activeConnections u = (s.connections u).isSome

/-- A throwaway event for exercising `broadcast_para_sala` on malformed ids. -/
def eventoTeste : EventoSSE :=
  ⟨"nova_mensagem", "a_b", ⟨1, "a_b", 1, "oi", none, none⟩⟩

/-- Manager with users 3 and 7 holding open SSE streams. -/
def mgrAmbos : ManagerState := ((initialManager.connect 3).1.connect 7).1

/-- User 3's queue in `mgrAmbos`. -/
def fila3 : Nat := (initialManager.connect 3).2

/-- User 7's queue in `mgrAmbos`. -/
def fila7 : Nat := ((initialManager.connect 3).1.connect 7).2

/-- Store holding the room `"3_7"` with its two participants and no
messages yet. -/
def dbSala37 : DB where
  mensagens := []
  participantes := [⟨"3_7", 3, none⟩, ⟨"3_7", 7, none⟩]
  salas := [⟨"3_7", 0, 0⟩]
  nextMensagemId := 1
  now := 5

/-- The run of `sendMessage("3_7", 3, "hi")` while users 3 and 7 both hold
open streams. -/
def envio37 : DB × ManagerState × EnvioResultado :=
  enviar_mensagem false dbSala37 mgrAmbos "3_7" "hi" 3

/-- The `nova_mensagem` event that run produces. -/
def evento37 : EventoSSE :=
  ⟨"nova_mensagem", "3_7", ⟨1, "3_7", 3, "hi", some (natToString 5), none⟩⟩

/-- A store for exercising `marcar_como_lidas`: room `"3_7"` with one unread
message from 3, one already-read message from 3, and one unread message
from 7. -/
def dbLeituras : DB where
  mensagens :=
    [⟨1, "3_7", 3, "oi", 1, none⟩,
     ⟨2, "3_7", 3, "tudo bem?", 2, some 3⟩,
     ⟨3, "3_7", 7, "oi!", 4, none⟩]
  participantes := [⟨"3_7", 3, none⟩, ⟨"3_7", 7, none⟩]
  salas := [⟨"3_7", 0, 4⟩]
  nextMensagemId := 4
  now := 9

/-! ### Registry lemmas -/

theorem connect_connections (s : ManagerState) (u v : Int) :
    ((s.connect u).1).connections v =
      if v = u then some (s.connect u).2 else s.connections v := rfl

theorem connect_active (s : ManagerState) (u v : Int) :
    ((s.connect u).1).activeConnections v =
      if v = u then true else s.activeConnections v := rfl

theorem connect_queueOf (s : ManagerState) (u : Int) :
    ((s.connect u).1).queueOf = s.queueOf := rfl

theorem disconnect_connections (s : ManagerState) (u v : Int) :
    (s.disconnect u).connections v = if v = u then none else s.connections v := by
  by_cases h1 : (s.connections u).isSome <;>
    [skip; rw [Option.not_isSome_iff_eq_none] at h1] <;>
    by_cases h3 : s.activeConnections u <;>
      by_cases hv : v = u <;>
        simp [ManagerState.disconnect, h1, h3, hv]

theorem disconnect_active (s : ManagerState) (u v : Int) :
    (s.disconnect u).activeConnections v =
      if v = u then false else s.activeConnections v := by
  by_cases h1 : (s.connections u).isSome <;>
    by_cases h3 : s.activeConnections u <;>
      by_cases hv : v = u <;>
        simp_all [ManagerState.disconnect]

theorem disconnect_queueOf (s : ManagerState) (u : Int) :
    (s.disconnect u).queueOf = s.queueOf := by
  by_cases h1 : (s.connections u).isSome <;>
    by_cases h3 : s.activeConnections u <;>
      simp [ManagerState.disconnect, h1, h3]

theorem disconnect_noop (s : ManagerState) (u : Int)
    (h1 : s.connections u = none) (h2 : s.activeConnections u = false) :
    s.disconnect u = s := by
  simp [ManagerState.disconnect, h1, h2]

theorem deliver_not_connected (s : ManagerState) (u : Int) (e : EventoSSE)
    (h : s.connections u = none) : s.deliverToUser u e = (s, false) := by
  unfold ManagerState.deliverToUser
  rw [h]

theorem deliver_connections (s : ManagerState) (u : Int) (e : EventoSSE) :
    ((s.deliverToUser u e).1).connections = s.connections := by
  unfold ManagerState.deliverToUser
  cases s.connections u <;> rfl

theorem deliver_active (s : ManagerState) (u : Int) (e : EventoSSE) :
    ((s.deliverToUser u e).1).activeConnections = s.activeConnections := by
  unfold ManagerState.deliverToUser
  cases s.connections u <;> rfl

theorem deliver_queueOf_self (s : ManagerState) (u : Int) (q : Nat) (e : EventoSSE)
    (h : s.connections u = some q) :
    ((s.deliverToUser u e).1).queueOf q = s.queueOf q ++ [e] := by
  unfold ManagerState.deliverToUser
  rw [h]
  simp

theorem deliver_queueOf_other (s : ManagerState) (u : Int) (q c : Nat) (e : EventoSSE)
    (h : s.connections u = some q) (hc : c ≠ q) :
    ((s.deliverToUser u e).1).queueOf c = s.queueOf c := by
  unfold ManagerState.deliverToUser
  rw [h]
  simp [hc]

theorem broadcast_connections (s : ManagerState) (sala : String) (e : EventoSSE) :
    ((s.broadcast_para_sala sala e).1).connections = s.connections := by
  unfold ManagerState.broadcast_para_sala
  rcases pySplitUnderscore sala with _ | ⟨p0, _ | ⟨p1, _ | ⟨p2, rest⟩⟩⟩ <;>
    try rfl
  rcases h0 : pyInt p0 with _ | u1 <;> rcases h1 : pyInt p1 with _ | u2 <;>
    simp [h0, h1, deliver_connections]

theorem broadcast_active (s : ManagerState) (sala : String) (e : EventoSSE) :
    ((s.broadcast_para_sala sala e).1).activeConnections = s.activeConnections := by
  unfold ManagerState.broadcast_para_sala
  rcases pySplitUnderscore sala with _ | ⟨p0, _ | ⟨p1, _ | ⟨p2, rest⟩⟩⟩ <;>
    try rfl
  rcases h0 : pyInt p0 with _ | u1 <;> rcases h1 : pyInt p1 with _ | u2 <;>
    simp [h0, h1, deliver_active]

theorem applyOp_consistent (s : ManagerState) (op : ManagerOp)
    (h : registryConsistent s) : registryConsistent (applyOp s op) := by
  intro v
  cases op with
  | connect u =>
    show ((s.connect u).1).activeConnections v = (((s.connect u).1).connections v).isSome
    rw [connect_active, connect_connections]
    by_cases hv : v = u <;> simp [hv, h v]
  | disconnect u =>
    show (s.disconnect u).activeConnections v = ((s.disconnect u).connections v).isSome
    rw [disconnect_active, disconnect_connections]
    by_cases hv : v = u <;> simp [hv, h v]
  | broadcast sala e =>
    show ((s.broadcast_para_sala sala e).1).activeConnections v
        = (((s.broadcast_para_sala sala e).1).connections v).isSome
    rw [broadcast_active, broadcast_connections]
    exact h v

theorem runOps_consistent (ops : List ManagerOp) (s : ManagerState)
    (h : registryConsistent s) : registryConsistent (runOps s ops) := by
  induction ops generalizing s with
  | nil => exact h
  | cons op ops ih => exact ih _ (applyOp_consistent s op h)

/-! ### Claim theorems for the connection registry -/

/-- Claim C2: a second `connect(u)` supersedes the first: the two calls
return distinct queues, after the second call the registry maps `u` to the
second queue, and a subsequent delivery for `u` enqueues the event only onto
the second queue while the first queue receives nothing.  (At most one
queue is ever registered per user because `_connections` is a dict keyed by
the user id, which the `connections` map of the model reflects.) -/
theorem connect_supersedes (s : ManagerState) (u : Int) (e : EventoSSE) :
    (s.connect u).2 ≠ ((s.connect u).1.connect u).2 ∧
    ((s.connect u).1.connect u).1.connections u = some (((s.connect u).1.connect u).2) ∧
    ((((s.connect u).1.connect u).1.deliverToUser u e).1.queueOf
        (((s.connect u).1.connect u).2)
      = ((s.connect u).1.connect u).1.queueOf (((s.connect u).1.connect u).2) ++ [e]) ∧
    ((((s.connect u).1.connect u).1.deliverToUser u e).1.queueOf ((s.connect u).2)
      = ((s.connect u).1.connect u).1.queueOf ((s.connect u).2)) := by
  refine ⟨?_, by simp [ManagerState.connect], ?_, ?_⟩
  · show s.nextQueue ≠ s.nextQueue + 1
    omega
  · exact deliver_queueOf_self _ u (s.nextQueue + 1) e (by simp [ManagerState.connect])
  · exact deliver_queueOf_other _ u (s.nextQueue + 1) s.nextQueue e
      (by simp [ManagerState.connect]) (by omega)

/-- Claim C5: the registry never reorders one connection's events: two
deliveries to a connected user append to that user's queue in invocation
order, and in the concrete `connect(5)`, `deliver e1`, `deliver e2` run the
session's FIFO `queue.get()` loop observes `e1` first and `e2` second. -/
theorem registry_fifo_order (s : ManagerState) (u : Int) (q : Nat) (e1 e2 : EventoSSE)
    (h : s.connections u = some q) :
    (((s.deliverToUser u e1).1.deliverToUser u e2).1.queueOf q
        = s.queueOf q ++ [e1, e2]) ∧
    (∃ rest,
      queueGet
        ((((initialManager.connect 5).1.deliverToUser 5 e1).1.deliverToUser 5 e2).1.queueOf
          ((initialManager.connect 5).2)) = some (e1, rest) ∧
      queueGet rest = some (e2, [])) := by
  constructor
  · have h2 : ((s.deliverToUser u e1).1).connections u = some q := by
      rw [deliver_connections]; exact h
    rw [deliver_queueOf_self _ u q e2 h2, deliver_queueOf_self s u q e1 h,
      List.append_assoc]
    rfl
  · exact ⟨[e2], by simp [initialManager, ManagerState.connect, ManagerState.deliverToUser,
      queueGet], rfl⟩

/-- Claim C6: delivering to a user with no live channel — never connected,
or disconnected — returns `delivered=false` and changes nothing: the state
is returned untouched, so no queue is created and no event enqueued. -/
theorem deliver_offline (s : ManagerState) (u : Int) (e : EventoSSE)
    (h : s.connections u = none) :
    s.deliverToUser u e = (s, false) ∧
    (s.disconnect u).deliverToUser u e = (s.disconnect u, false) := by
  refine ⟨deliver_not_connected s u e h, deliver_not_connected _ u e ?_⟩
  rw [disconnect_connections]
  simp

/-- Claim C8: `disconnect` is idempotent: running it twice equals running it
once, and on a user with no registered channel (hence, by the registry
invariant, also absent from the active set) it is a no-op returning the
state unchanged, raising nothing. -/
theorem disconnect_idempotent (s : ManagerState) (u : Int) :
    (s.disconnect u).disconnect u = s.disconnect u ∧
    (s.connections u = none → s.activeConnections u = false →
      s.disconnect u = s) := by
  constructor
  · exact disconnect_noop _ u (by rw [disconnect_connections]; simp)
      (by rw [disconnect_active]; simp)
  · exact fun h1 h2 => disconnect_noop s u h1 h2

/-- Witness for claim C8 at the freshly constructed manager and user 2. -/
theorem disconnect_idempotent_witness :
    (initialManager.disconnect 2).disconnect 2 = initialManager.disconnect 2 ∧
    initialManager.disconnect 2 = initialManager :=
  ⟨(disconnect_idempotent initialManager 2).1,
   (disconnect_idempotent initialManager 2).2 rfl rfl⟩

/-- Witness for claim C5: user 1 connected on the fresh manager holds
queue 0; two deliveries land in invocation order. -/
theorem registry_fifo_order_witness :
    (initialManager.connect 1).1.connections 1 = some 0 ∧
    ((((initialManager.connect 1).1.deliverToUser 1 eventoTeste).1.deliverToUser 1
        eventoTeste).1.queueOf 0
      = (initialManager.connect 1).1.queueOf 0 ++ [eventoTeste, eventoTeste]) :=
  ⟨by decide,
   (registry_fifo_order (initialManager.connect 1).1 1 0 eventoTeste eventoTeste
      (by decide)).1⟩

/-- Witness for claim C6: user 9 never connected on the fresh manager. -/
theorem deliver_offline_witness :
    initialManager.deliverToUser 9 eventoTeste = (initialManager, false) ∧
    (initialManager.disconnect 9).deliverToUser 9 eventoTeste
      = (initialManager.disconnect 9, false) :=
  deliver_offline initialManager 9 eventoTeste rfl

/-- Claim C10: every `ChatManager` operation preserves the invariant that
`_active_connections` is exactly the key set of `_connections`; hence in any
state reachable from the freshly constructed manager, `is_connected u` holds
exactly when a delivery channel is registered for `u`. -/
theorem is_connected_iff_registered (ops : List ManagerOp) (u : Int) :
    (runOps initialManager ops).is_connected u
      = ((runOps initialManager ops).connections u).isSome := by
  exact runOps_consistent ops initialManager (fun v => rfl) u

/-! ### Claim C1: malformed room ids in the fan-out path -/

/-- Counterexample to claim C1: the room-id strings `"a_b"` and `"_"` split
into exactly two parts, so they pass the only guard in
`broadcast_para_sala`, and `int(...)` then raises an unhandled `ValueError`
into the fan-out path instead of the claimed log-and-return. -/
theorem broadcast_malformed_counterexample :
    (initialManager.broadcast_para_sala "a_b" eventoTeste).2
        = BroadcastOutcome.valueError ∧
    (initialManager.broadcast_para_sala "_" eventoTeste).2
        = BroadcastOutcome.valueError ∧
    BroadcastOutcome.valueError ≠ BroadcastOutcome.invalidId := by
  refine ⟨by decide, by decide, by decide⟩

/-- Claim C1 (amended): `broadcast_para_sala` handles gracefully — log,
return, deliver to no one, registry unchanged — exactly the room-id strings
whose `_`-split does not have two parts; a string with exactly two
`_`-separated parts of which one is not an integer literal instead raises
an unhandled `ValueError` out of the fan-out, though even then nothing is
delivered and the registry state is unchanged. -/
theorem broadcast_malformed_amended (s : ManagerState) (sala : String) (e : EventoSSE) :
    ((pySplitUnderscore sala).length ≠ 2 →
      s.broadcast_para_sala sala e = (s, BroadcastOutcome.invalidId)) ∧
    (∀ p0 p1, pySplitUnderscore sala = [p0, p1] →
      pyInt p0 = none ∨ pyInt p1 = none →
      s.broadcast_para_sala sala e = (s, BroadcastOutcome.valueError)) := by
  constructor
  · intro hlen
    unfold ManagerState.broadcast_para_sala
    rcases h : pySplitUnderscore sala with _ | ⟨p0, _ | ⟨p1, _ | ⟨p2, rest⟩⟩⟩ <;>
      simp_all
  · intro p0 p1 hsplit hbad
    unfold ManagerState.broadcast_para_sala
    rw [hsplit]
    rcases hbad with hb | hb
    · simp [hb]
    · rcases h0 : pyInt p0 with _ | u1 <;> simp [h0, hb]

/-- Witness for claim C1 (amended), at a three-part id and at `"a_b"`. -/
theorem broadcast_malformed_amended_witness :
    initialManager.broadcast_para_sala "1_2_3" eventoTeste
        = (initialManager, BroadcastOutcome.invalidId) ∧
    initialManager.broadcast_para_sala "a_b" eventoTeste
        = (initialManager, BroadcastOutcome.valueError) :=
  ⟨(broadcast_malformed_amended initialManager "1_2_3" eventoTeste).1 (by decide),
   (broadcast_malformed_amended initialManager "a_b" eventoTeste).2 "a" "b"
      (by decide) (Or.inl (by decide))⟩

/-! ### Claim C3: sender echo on the concrete send scenario -/

/-- Claim C3: running `sendMessage("3_7", 3, "hi")` while users 3 and 7 both
hold open streams enqueues one `nova_mensagem` event onto both users'
queues — the sender's own queue included — carrying the full snapshot with
`usuario_id = 3`, `mensagem = "hi"` and `lida_em = null`; fan-out treats the
sender exactly like the recipient. -/
theorem envio37_sender_echo :
    envio37.2.1.queueOf fila3 = [evento37] ∧
    envio37.2.1.queueOf fila7 = [evento37] ∧
    evento37.tipo = "nova_mensagem" ∧
    evento37.mensagem.usuario_id = 3 ∧
    evento37.mensagem.mensagem = "hi" ∧
    evento37.mensagem.lida_em = none ∧
    envio37.2.2 = EnvioResultado.sucesso evento37.mensagem := by
  refine ⟨by decide, by decide, rfl, rfl, rfl, rfl, by decide⟩

/-! ### Claim C7: ordering inside the send request -/

/-- Claim C7: within one `enviar_mensagem` request the steps run strictly in
the order persist → update room activity timestamp → fan out: any validation
or authorization rejection and any store fault on the `INSERT` returns with
the store and the registry both untouched — in particular fan-out is never
attempted for a message that failed to persist, so no delivery event exists
for an unpersisted message — and on the non-faulting path the final store is
the activity update applied after the insert, the inserted row is
retrievable from it, and the registry results from fanning out the event
built from the persisted row. -/
theorem enviar_mensagem_order (sf : Bool) (db : DB) (mgr : ManagerState)
    (sala_id mensagem : String) (u : Int) :
    ((enviar_mensagem sf db mgr sala_id mensagem u).2.2 = EnvioResultado.erroValidacao ∨
     (enviar_mensagem sf db mgr sala_id mensagem u).2.2 = EnvioResultado.erroForbidden ∨
     (enviar_mensagem sf db mgr sala_id mensagem u).2.2 = EnvioResultado.falhaStore →
      (enviar_mensagem sf db mgr sala_id mensagem u).1 = db ∧
      (enviar_mensagem sf db mgr sala_id mensagem u).2.1 = mgr) ∧
    (∀ sala msg, enviarMensagemDTO sala_id mensagem = some (sala, msg) →
      obter_por_sala_e_usuario db sala u = none →
      enviar_mensagem sf db mgr sala_id mensagem u
        = (db, mgr, EnvioResultado.erroForbidden)) ∧
    (∀ sala msg, enviarMensagemDTO sala_id mensagem = some (sala, msg) →
      obter_por_sala_e_usuario db sala u ≠ none → sf = true →
      enviar_mensagem sf db mgr sala_id mensagem u
        = (db, mgr, EnvioResultado.falhaStore)) ∧
    (∀ sala msg, enviarMensagemDTO sala_id mensagem = some (sala, msg) →
      obter_por_sala_e_usuario db sala u ≠ none → sf = false →
      (enviar_mensagem sf db mgr sala_id mensagem u).1
          = atualizar_ultima_atividade (inserir db sala u msg).1 sala ∧
      (inserir db sala u msg).2
          ∈ (enviar_mensagem sf db mgr sala_id mensagem u).1.mensagens ∧
      (enviar_mensagem sf db mgr sala_id mensagem u).2.1
          = (mgr.broadcast_para_sala sala (eventoSSEOf (inserir db sala u msg).2)).1) := by
  rcases hdto : enviarMensagemDTO sala_id mensagem with _ | ⟨sala0, msg0⟩
  · have he : enviar_mensagem sf db mgr sala_id mensagem u
        = (db, mgr, EnvioResultado.erroValidacao) := by
      simp only [enviar_mensagem, hdto]
    refine ⟨fun _ => ⟨by rw [he], by rw [he]⟩, ?_, ?_, ?_⟩ <;>
      · intro sala msg hd
        cases hd
  · rcases hpart : obter_por_sala_e_usuario db sala0 u with _ | part
    · have he : enviar_mensagem sf db mgr sala_id mensagem u
          = (db, mgr, EnvioResultado.erroForbidden) := by
        simp only [enviar_mensagem, hdto, hpart]
      refine ⟨fun _ => ⟨by rw [he], by rw [he]⟩, ?_, ?_, ?_⟩
      · intro sala msg hd hnone
        cases hd
        exact he
      · intro sala msg hd hne hsf
        cases hd
        exact absurd hpart hne
      · intro sala msg hd hne hsf
        cases hd
        exact absurd hpart hne
    · cases sf
      · have hins : (inserir db sala0 u msg0).2
            ∈ (atualizar_ultima_atividade (inserir db sala0 u msg0).1 sala0).mensagens := by
          simp [inserir, atualizar_ultima_atividade]
        have h1 : (enviar_mensagem false db mgr sala_id mensagem u).1
            = atualizar_ultima_atividade (inserir db sala0 u msg0).1 sala0 := by
          simp only [enviar_mensagem, hdto, hpart, Bool.false_eq_true, if_false]
          rcases hb : mgr.broadcast_para_sala sala0
              (eventoSSEOf (inserir db sala0 u msg0).2) with ⟨mgr2, outcome⟩
          cases outcome <;> rfl
        have h2 : (enviar_mensagem false db mgr sala_id mensagem u).2.1
            = (mgr.broadcast_para_sala sala0 (eventoSSEOf (inserir db sala0 u msg0).2)).1 := by
          simp only [enviar_mensagem, hdto, hpart, Bool.false_eq_true, if_false]
          rcases hb : mgr.broadcast_para_sala sala0
              (eventoSSEOf (inserir db sala0 u msg0).2) with ⟨mgr2, outcome⟩
          cases outcome <;> rfl
        have h3 : (enviar_mensagem false db mgr sala_id mensagem u).2.2
              = EnvioResultado.falhaBroadcast ∨
            (enviar_mensagem false db mgr sala_id mensagem u).2.2
              = EnvioResultado.sucesso (mensagemSSEOf (inserir db sala0 u msg0).2) := by
          simp only [enviar_mensagem, hdto, hpart, Bool.false_eq_true, if_false]
          rcases hb : mgr.broadcast_para_sala sala0
              (eventoSSEOf (inserir db sala0 u msg0).2) with ⟨mgr2, outcome⟩
          cases outcome with
          | valueError => exact Or.inl rfl
          | invalidId => exact Or.inr rfl
          | delivered u1 u2 => exact Or.inr rfl
        refine ⟨fun hres => ?_, ?_, ?_, ?_⟩
        · rcases h3 with h | h <;> rcases hres with hr | hr | hr <;>
            rw [h] at hr <;> cases hr
        · intro sala msg hd hnone
          cases hd
          rw [hnone] at hpart
          cases hpart
        · intro sala msg hd hne hsf
          cases hsf
        · intro sala msg hd hne hsf
          cases hd
          exact ⟨h1, h1 ▸ hins, h2⟩
      · have he : enviar_mensagem true db mgr sala_id mensagem u
            = (db, mgr, EnvioResultado.falhaStore) := by
          simp only [enviar_mensagem, hdto, hpart, if_true]
        refine ⟨fun _ => ⟨by rw [he], by rw [he]⟩, ?_, ?_, ?_⟩
        · intro sala msg hd hnone
          cases hd
          exact absurd hpart (by rw [hnone]; exact Option.noConfusion)
        · intro sala msg hd hne hsf
          cases hd
          exact he
        · intro sala msg hd hne hsf
          cases hsf

/-- Witness for claim C7 on the concrete `"3_7"` store: a non-participant
is rejected with the store and registry untouched, a store fault returns
with both untouched, and a successful send leaves the store produced by
updating activity after the insert. -/
theorem enviar_mensagem_order_witness :
    enviar_mensagem false dbSala37 initialManager "3_7" "hi" 9
        = (dbSala37, initialManager, EnvioResultado.erroForbidden) ∧
    enviar_mensagem true dbSala37 initialManager "3_7" "hi" 3
        = (dbSala37, initialManager, EnvioResultado.falhaStore) ∧
    (enviar_mensagem false dbSala37 mgrAmbos "3_7" "hi" 3).1
        = atualizar_ultima_atividade (inserir dbSala37 "3_7" 3 "hi").1 "3_7" :=
  ⟨(enviar_mensagem_order false dbSala37 initialManager "3_7" "hi" 9).2.1 "3_7" "hi"
      (by decide) (by decide),
   (enviar_mensagem_order true dbSala37 initialManager "3_7" "hi" 3).2.2.1 "3_7" "hi"
      (by decide) (by decide) rfl,
   ((enviar_mensagem_order false dbSala37 mgrAmbos "3_7" "hi" 3).2.2.2 "3_7" "hi"
      (by decide) (by decide) rfl).1⟩

/-! ### Claim C9: read marking and unread counts -/

theorem naoLidaDeOutro_iff (sala : String) (u : Int) (m : ChatMensagem) :
    naoLidaDeOutro sala u m = true
      ↔ (m.sala_id = sala ∧ m.usuario_id ≠ u ∧ m.lida_em = none) := by
  simp [naoLidaDeOutro, and_assoc]

theorem contar_apos_marcar (sala : String) (leitor outro : Int) (now : Nat)
    (l : List ChatMensagem)
    (htwo : ∀ m ∈ l, m.sala_id = sala → m.usuario_id = leitor ∨ m.usuario_id = outro) :
    ((l.map (fun m => if naoLidaDeOutro sala leitor m
          then { m with lida_em := some now } else m)).filter
        (naoLidaDeOutro sala outro)).length
      = (l.filter (naoLidaDeOutro sala outro)).length := by
  induction l with
  | nil => rfl
  | cons m l ih =>
    have htl : ∀ x ∈ l, x.sala_id = sala → x.usuario_id = leitor ∨ x.usuario_id = outro :=
      fun x hx => htwo x (List.mem_cons_of_mem _ hx)
    have hm := htwo m (List.mem_cons_self _ _)
    by_cases hupd : naoLidaDeOutro sala leitor m = true
    · obtain ⟨hs, hu, hl⟩ := (naoLidaDeOutro_iff sala leitor m).mp hupd
      have huo : m.usuario_id = outro := (hm hs).resolve_left hu
      have hb : naoLidaDeOutro sala outro m = false := by
        rw [Bool.eq_false_iff]
        intro hx
        exact ((naoLidaDeOutro_iff sala outro m).mp hx).2.1 huo
      have hb2 : naoLidaDeOutro sala outro { m with lida_em := some now } = false := by
        rw [Bool.eq_false_iff]
        intro hx
        exact ((naoLidaDeOutro_iff sala outro _).mp hx).2.1 huo
      simp only [List.map_cons, hupd, if_true, List.filter_cons, hb, hb2,
        Bool.false_eq_true, if_false]
      exact ih htl
    · simp only [List.map_cons, hupd, Bool.false_eq_true, if_false, List.filter_cons]
      by_cases hc : naoLidaDeOutro sala outro m = true <;>
        simp only [hc, if_true, Bool.false_eq_true, if_false, List.length_cons] <;>
        rw [ih htl]

/-- Claim C9: `marcar_como_lidas(sala, leitor)` stamps the read timestamp on
exactly the previously-unread messages of that room sent by someone other
than the reader — the reader's own messages, already-read messages and
other rooms' rows are returned unchanged; an unread count never includes a
user's own messages, and in a two-party room marking it read leaves the
other participant's (the sender's) own unread count for the room
unchanged. -/
theorem marcar_como_lidas_exact (db : DB) (sala : String) (leitor outro : Int)
    (_hne : outro ≠ leitor)
    (htwo : ∀ m ∈ db.mensagens, m.sala_id = sala →
      m.usuario_id = leitor ∨ m.usuario_id = outro) :
    ((marcar_como_lidas db sala leitor).1.mensagens.length = db.mensagens.length) ∧
    (∀ i (h1 : i < db.mensagens.length)
        (h2 : i < (marcar_como_lidas db sala leitor).1.mensagens.length),
      ((db.mensagens.get ⟨i, h1⟩).usuario_id = leitor →
        (marcar_como_lidas db sala leitor).1.mensagens.get ⟨i, h2⟩
          = db.mensagens.get ⟨i, h1⟩) ∧
      ((db.mensagens.get ⟨i, h1⟩).lida_em ≠ none →
        (marcar_como_lidas db sala leitor).1.mensagens.get ⟨i, h2⟩
          = db.mensagens.get ⟨i, h1⟩) ∧
      ((db.mensagens.get ⟨i, h1⟩).sala_id ≠ sala →
        (marcar_como_lidas db sala leitor).1.mensagens.get ⟨i, h2⟩
          = db.mensagens.get ⟨i, h1⟩) ∧
      ((db.mensagens.get ⟨i, h1⟩).sala_id = sala →
        (db.mensagens.get ⟨i, h1⟩).usuario_id ≠ leitor →
        (db.mensagens.get ⟨i, h1⟩).lida_em = none →
        (marcar_como_lidas db sala leitor).1.mensagens.get ⟨i, h2⟩
          = { db.mensagens.get ⟨i, h1⟩ with lida_em := some db.now })) ∧
    (contar_nao_lidas_por_sala (marcar_como_lidas db sala leitor).1 sala outro
      = contar_nao_lidas_por_sala db sala outro) ∧
    (∀ m ∈ db.mensagens.filter (naoLidaDeOutro sala leitor), m.usuario_id ≠ leitor) := by
  refine ⟨List.length_map _ _, ?_, ?_, ?_⟩
  · intro i h1 h2
    have hget : (marcar_como_lidas db sala leitor).1.mensagens.get ⟨i, h2⟩
        = if naoLidaDeOutro sala leitor (db.mensagens.get ⟨i, h1⟩)
            then { db.mensagens.get ⟨i, h1⟩ with lida_em := some db.now }
            else db.mensagens.get ⟨i, h1⟩ :=
      List.getElem_map _
    refine ⟨fun hu => ?_, fun hl => ?_, fun hs => ?_, fun hs hu hl => ?_⟩
    · rw [hget, if_neg]
      rw [naoLidaDeOutro_iff]
      rintro ⟨-, h, -⟩
      exact h hu
    · rw [hget, if_neg]
      rw [naoLidaDeOutro_iff]
      rintro ⟨-, -, h⟩
      exact hl h
    · rw [hget, if_neg]
      rw [naoLidaDeOutro_iff]
      rintro ⟨h, -, -⟩
      exact hs h
    · rw [hget, if_pos]
      rw [naoLidaDeOutro_iff]
      exact ⟨hs, hu, hl⟩
  · exact contar_apos_marcar sala leitor outro db.now db.mensagens htwo
  · intro m hm
    exact ((naoLidaDeOutro_iff sala leitor m).mp (List.of_mem_filter hm)).2.1

/-- Witness for claim C9 on the concrete `"3_7"` store with reader 7 and
sender 3. -/
theorem marcar_como_lidas_exact_witness :
    contar_nao_lidas_por_sala (marcar_como_lidas dbLeituras "3_7" 7).1 "3_7" 3
      = contar_nao_lidas_por_sala dbLeituras "3_7" 3 :=
  (marcar_como_lidas_exact dbLeituras "3_7" 7 3 (by decide) (by decide)).2.2.1

/-! ### Claim C4: the canonical room id and its round-trip -/


theorem isDigitChar_digitChar (n : Nat) (h : n < 10) :
    isDigitChar (digitChar n) = true := by
  interval_cases n <;> decide

theorem digitVal_digitChar (n : Nat) (h : n < 10) :
    digitVal (digitChar n) = n := by
  interval_cases n <;> decide

theorem natDigitsAux_acc (fuel : Nat) : ∀ (n : Nat) (acc : List Char),
    natDigitsAux fuel n acc = natDigitsAux fuel n [] ++ acc := by
  induction fuel with
  | zero => intro n acc; rfl
  | succ fuel ih =>
    intro n acc
    by_cases h : n < 10
    · simp [natDigitsAux, h]
    · simp only [natDigitsAux, h, if_false]
      rw [ih (n / 10) (digitChar (n % 10) :: acc), ih (n / 10) [digitChar (n % 10)],
        List.append_assoc]
      rfl

theorem digitsToNat_append (ds : List Char) (c : Char) :
    digitsToNat (ds ++ [c]) = 10 * digitsToNat ds + digitVal c := by
  simp [digitsToNat, List.foldl_append]
  omega

theorem digitsToNat_natDigitsAux (fuel : Nat) : ∀ n : Nat, n ≤ fuel →
    digitsToNat (natDigitsAux fuel n []) = n := by
  induction fuel with
  | zero =>
    intro n h
    have hn : n = 0 := by omega
    subst hn
    decide
  | succ fuel ih =>
    intro n h
    by_cases h10 : n < 10
    · simp only [natDigitsAux, h10, if_true]
      show digitsToNat [digitChar n] = n
      simp [digitsToNat, digitVal_digitChar n h10]
    · simp only [natDigitsAux, h10, if_false]
      rw [natDigitsAux_acc, digitsToNat_append]
      have hdiv : n / 10 ≤ fuel := by omega
      rw [ih (n / 10) hdiv, digitVal_digitChar (n % 10) (by omega)]
      omega

theorem mem_natDigitsAux_digit (fuel : Nat) : ∀ n : Nat, n ≤ fuel →
    ∀ c ∈ natDigitsAux fuel n [], isDigitChar c = true := by
  induction fuel with
  | zero =>
    intro n h c hc
    have hn : n = 0 := by omega
    subst hn
    simp only [natDigitsAux, List.mem_singleton] at hc
    subst hc
    exact isDigitChar_digitChar _ (by omega)
  | succ fuel ih =>
    intro n h c hc
    by_cases h10 : n < 10
    · simp only [natDigitsAux, h10, if_true, List.mem_singleton] at hc
      subst hc
      exact isDigitChar_digitChar _ h10
    · simp only [natDigitsAux, h10, if_false] at hc
      rw [natDigitsAux_acc, List.mem_append] at hc
      rcases hc with hc | hc
      · exact ih (n / 10) (by omega) c hc
      · simp only [List.mem_singleton] at hc
        subst hc
        exact isDigitChar_digitChar _ (by omega)

theorem natDigitsAux_ne_nil (fuel n : Nat) : natDigitsAux fuel n [] ≠ [] := by
  cases fuel with
  | zero => simp [natDigitsAux]
  | succ fuel =>
    by_cases h10 : n < 10 <;> simp only [natDigitsAux, h10, if_true, if_false]
    · simp
    · rw [natDigitsAux_acc]
      simp

theorem natDigits_ne_nil (n : Nat) : natDigits n ≠ [] := natDigitsAux_ne_nil n n

theorem mem_natDigits_digit (n : Nat) : ∀ c ∈ natDigits n, isDigitChar c = true :=
  mem_natDigitsAux_digit n n le_rfl

theorem digitsToNat_natDigits (n : Nat) : digitsToNat (natDigits n) = n :=
  digitsToNat_natDigitsAux n n le_rfl

theorem stripLeading_of_forall (p : Char → Bool) (l : List Char)
    (h : ∀ c ∈ l, p c = false) : stripLeading p l = l := by
  cases l with
  | nil => rfl
  | cons c cs =>
    have : p c = false := h c (by simp)
    simp [stripLeading, this]

theorem pyStrip_no_ws (l : List Char) (h : ∀ c ∈ l, isPyWhitespace c = false) :
    pyStrip l = l := by
  unfold pyStrip
  rw [stripLeading_of_forall _ _ (fun c hc => h c (List.mem_reverse.mp hc)),
    List.reverse_reverse, stripLeading_of_forall _ _ h]

theorem isDigitChar_not_ws (c : Char) (h : isDigitChar c = true) :
    isPyWhitespace c = false := by
  by_cases h1 : c = ' '
  · subst h1; exact absurd h (by decide)
  by_cases h2 : c = '\t'
  · subst h2; exact absurd h (by decide)
  by_cases h3 : c = '\n'
  · subst h3; exact absurd h (by decide)
  by_cases h4 : c = '\r'
  · subst h4; exact absurd h (by decide)
  simp [isPyWhitespace, h1, h2, h3, h4]

theorem isDigitChar_ne (c : Char) (h : isDigitChar c = true) :
    c ≠ '-' ∧ c ≠ '+' ∧ c ≠ '_' := by
  refine ⟨?_, ?_, ?_⟩ <;> intro he <;> subst he <;> exact absurd h (by decide)

theorem splitChar_of_not_mem (sep : Char) (l : List Char) (h : sep ∉ l) :
    splitChar sep l = [l] := by
  induction l with
  | nil => rfl
  | cons c cs ih =>
    have hc : ¬c = sep := fun he => h (he ▸ List.mem_cons_self c cs)
    have hcs : sep ∉ cs := fun hm => h (List.mem_cons_of_mem _ hm)
    simp [splitChar, ih hcs, hc]

theorem splitChar_sandwich (sep : Char) (l1 l2 : List Char)
    (h1 : sep ∉ l1) (h2 : sep ∉ l2) :
    splitChar sep (l1 ++ sep :: l2) = [l1, l2] := by
  induction l1 with
  | nil =>
    simp only [List.nil_append, splitChar, splitChar_of_not_mem sep l2 h2]
    simp
  | cons c cs ih =>
    have hc : ¬c = sep := fun he => h1 (he ▸ List.mem_cons_self c cs)
    have hcs : sep ∉ cs := fun hm => h1 (List.mem_cons_of_mem _ hm)
    simp only [List.cons_append, splitChar, List.append_eq]
    rw [ih hcs]
    simp [hc]

theorem parseDigits_of_digits (ds : List Char) (hne : ds ≠ [])
    (hall : ∀ c ∈ ds, isDigitChar c = true) :
    parseDigits ds = some (digitsToNat ds) := by
  have hb : ds.all isDigitChar = true := List.all_eq_true.mpr hall
  simp [parseDigits, hne, hb]

theorem pyInt_mk_digits (ds : List Char) (hne : ds ≠ [])
    (hall : ∀ c ∈ ds, isDigitChar c = true) :
    pyInt (String.mk ds) = some (digitsToNat ds : Int) := by
  obtain ⟨c, rest, rfl⟩ := List.exists_cons_of_ne_nil hne
  have hstrip : pyStrip (c :: rest) = c :: rest :=
    pyStrip_no_ws _ (fun x hx => isDigitChar_not_ws x (hall x hx))
  have hc := isDigitChar_ne c (hall c (List.mem_cons_self c rest))
  unfold pyInt
  rw [show (String.mk (c :: rest)).data = c :: rest from rfl, hstrip]
  simp only [if_neg hc.1, if_neg hc.2.1, parseDigits_of_digits _ hne hall, Option.map_some]
  rfl

theorem pyInt_natToString (n : Nat) : pyInt (natToString n) = some (n : Int) := by
  unfold natToString
  rw [pyInt_mk_digits _ (natDigits_ne_nil n) (mem_natDigits_digit n), digitsToNat_natDigits]

theorem string_data_append (s t : String) : (s ++ t).data = s.data ++ t.data := by
  cases s; cases t; rfl

theorem not_underscore_mem_natDigits (n : Nat) : '_' ∉ natDigits n := fun hmem =>
  (isDigitChar_ne _ (mem_natDigits_digit n _ hmem)).2.2 rfl

/-- Claim C4: for positive `a ≠ b` the canonical room id is symmetric in its
arguments and equals `"{min}_{max}"` in decimal; splitting it on `_` yields
exactly two parts which `int` parses back to `min a b` and `max a b`, and
that pair is the unordered pair `{a, b}`. -/
theorem gerar_sala_id_ok (a b : Int) (ha : 0 < a) (hb : 0 < b) (_hab : a ≠ b) :
    gerar_sala_id a b = gerar_sala_id b a ∧
    (pySplitUnderscore (gerar_sala_id a b)).map pyInt
      = [some (min a b), some (max a b)] ∧
    ({min a b, max a b} : Set Int) = {a, b} := by
  have hg : ∀ x y : Int, gerar_sala_id x y
      = intToString (min x y) ++ "_" ++ intToString (max x y) := by
    intro x y
    unfold gerar_sala_id
    rw [min_def, max_def]
  have hlo : (0 : Int) ≤ min a b := (lt_min ha hb).le
  have hhi : (0 : Int) ≤ max a b := le_max_of_le_left ha.le
  have hi1 : intToString (min a b) = String.mk (natDigits (min a b).natAbs) := by
    unfold intToString natToString
    rw [if_neg (not_lt.mpr hlo)]
  have hi2 : intToString (max a b) = String.mk (natDigits (max a b).natAbs) := by
    unfold intToString natToString
    rw [if_neg (not_lt.mpr hhi)]
  have hsplit : pySplitUnderscore (gerar_sala_id a b)
      = [natToString (min a b).natAbs, natToString (max a b).natAbs] := by
    rw [hg a b, hi1, hi2]
    unfold pySplitUnderscore
    rw [string_data_append, string_data_append]
    rw [show (String.mk (natDigits (min a b).natAbs)).data
        = natDigits (min a b).natAbs from rfl]
    rw [show (String.mk (natDigits (max a b).natAbs)).data
        = natDigits (max a b).natAbs from rfl]
    rw [show ("_" : String).data = ['_'] from rfl]
    rw [List.append_assoc]
    rw [show ['_'] ++ natDigits (max a b).natAbs
        = '_' :: natDigits (max a b).natAbs from rfl]
    rw [splitChar_sandwich '_' _ _ (not_underscore_mem_natDigits _)
      (not_underscore_mem_natDigits _)]
    rfl
  refine ⟨?_, ?_, ?_⟩
  · rw [hg a b, hg b a, min_comm b a, max_comm b a]
  · rw [hsplit]
    simp only [List.map_cons, List.map_nil, pyInt_natToString]
    rw [Int.natAbs_of_nonneg hlo, Int.natAbs_of_nonneg hhi]
  · rcases le_total a b with h | h
    · rw [min_eq_left h, max_eq_right h]
    · rw [min_eq_right h, max_eq_left h, Set.pair_comm]

/-- Witness for claim C4 at the pair (3, 7). -/
theorem gerar_sala_id_ok_witness :
    gerar_sala_id 3 7 = gerar_sala_id 7 3 ∧
    (pySplitUnderscore (gerar_sala_id 3 7)).map pyInt
      = [some (min 3 7), some (max 3 7)] ∧
    ({min 3 7, max 3 7} : Set Int) = {3, 7} :=
  gerar_sala_id_ok 3 7 (by decide) (by decide) (by decide)

end ChatApp
